import Mathlib

set_option autoImplicit false

namespace Lifx

/-! Shallow embedding of `integration/lifx_script.py`: a Cortex XSOAR
integration exposing the LIFX HTTP API as commands.  Python/JSON runtime
values are modelled by `Val`, the host-supplied argument mapping by `Args`,
and the HTTP layer by a `Transport` oracle mapping each outbound call to
either a response or a raised (network-level) exception.  Machine floats are
modelled by `Rat`: every numeric value the script manipulates is a small
decimal, so exact rationals are faithful. -/

/-- Runtime value: models the Python/JSON values flowing through the script
(arguments, request payloads, API responses, result entries, contexts). -/
inductive Val where
  | null
  | bool (b : Bool)
  | num (q : Rat)
  | str (s : String)
  | list (xs : List Val)
  | dict (kvs : List (String × Val))

/-- Python truthiness of a value (`if v:`). -/
def Val.truthy : Val → Bool
  | .null => false
  | .bool b => b
  | .num q => q != 0
  | .str s => s != ""
  | .list xs => !xs.isEmpty
  | .dict kvs => !kvs.isEmpty

/-- Dictionary lookup, `d.get(k)` for a `Val` known to be a dict; `none` on
a missing key or a non-dict. -/
def Val.get : Val → String → Option Val
  | .dict kvs, k => kvs.lookup k
  | _, _ => none

/-- `isinstance(v, list)`. -/
def Val.isList : Val → Bool
  | .list _ => true
  | _ => false

/-- Follow a chain of dict keys starting from a value (used by theorems to
inspect nested entry contexts). -/
def digVal (v : Val) (path : List String) : Option Val :=
  path.foldl (fun acc k => acc.bind (fun w => Val.get w k)) (some v)

/-- The host argument mapping: string keys to optional string values
(`demisto.args()`; XSOAR delivers command arguments as strings). -/
def Args : Type := String → Option String

/-- Python `val or ...` truthiness filter on an optional string: an absent
or empty string is falsy. -/
def truthyStrOpt (v : Option String) : Option String :=
  match v with
  | some s => if s = "" then none else some s
  | none => none

/-- Python `args.get(k) or d`. -/
def orDefault (v : Option String) (d : String) : String :=
  (truthyStrOpt v).getD d

/-- Python truthiness of an optional string. -/
def pyTruthyOpt (v : Option String) : Bool :=
  (truthyStrOpt v).isSome

/-- Python `s.lower()` (ASCII case folding, all this integration needs). -/
def pyLower (s : String) : String := ⟨s.data.map Char.toLower⟩

/-- Python `s.strip()`: remove leading and trailing whitespace. -/
def pyStrip (s : String) : String :=
  ⟨((s.data.dropWhile Char.isWhitespace).reverse.dropWhile Char.isWhitespace).reverse⟩

/-- Digits of a decimal literal to a natural number; `none` when empty or
containing a non-digit. -/
def digitsToNat? (cs : List Char) : Option Nat :=
  if cs.isEmpty then none
  else cs.foldl (fun acc c =>
    match acc with
    | none => none
    | some n => if c.isDigit then some (n * 10 + (c.toNat - 48)) else none) (some 0)

/-- Strip one optional leading sign, returning the sign and the rest. -/
def parseSign : List Char → Int × List Char
  | '-' :: r => (-1, r)
  | '+' :: r => (1, r)
  | cs => (1, cs)

/-- Python `int(s)` on a string: strip whitespace, optional sign, decimal
digits; `none` models a raised `ValueError`.  (Underscore separators and
non-decimal bases, never used by this integration, are not modelled.) -/
def pyParseInt? (s : String) : Option Int :=
  let t := pyStrip s
  let sc := parseSign t.data
  (digitsToNat? sc.2).map (fun n => sc.1 * n)

/-- Python `float(s)` on a string: strip whitespace, optional sign, decimal
digits with an optional fractional part; `none` models a raised
`ValueError`.  (Exponent notation and `inf`/`nan`, never used by this
integration's arguments, are not modelled.) -/
def pyParseFloat? (s : String) : Option Rat :=
  let t := pyStrip s
  let sc := parseSign t.data
  let intPart := sc.2.takeWhile (fun c => c ≠ '.')
  match sc.2.dropWhile (fun c => c ≠ '.') with
  | [] => (digitsToNat? intPart).map (fun n => (sc.1 : Rat) * n)
  | '.' :: frac =>
    if intPart.isEmpty && frac.isEmpty then none
    else if !(intPart.all Char.isDigit) || !(frac.all Char.isDigit) then none
    else
      let ip : Nat := intPart.foldl (fun n c => n * 10 + (c.toNat - 48)) 0
      let fp : Nat := frac.foldl (fun n c => n * 10 + (c.toNat - 48)) 0
      some ((sc.1 : Rat) * ((ip : Rat) + (fp : Rat) / ((10 : Rat) ^ frac.length)))
  | _ :: _ => none

/-- Exceptions the script can raise: the client's API error
(`Exception(f"LIFX API error {status}: {text}")`), a network-level error
raised by the HTTP stack, and Python `ValueError` / `AttributeError` /
`TypeError`. -/
inductive PyError where
  | apiError (status : Nat) (text : String)
  | netError (msg : String)
  | valueError (msg : String)
  | attrError (msg : String)
  | typeError (msg : String)

/-- Python `str(e)` of a raised exception. -/
def PyError.message : PyError → String
  | .apiError st text => "LIFX API error " ++ toString st ++ ": " ++ text
  | .netError m => m
  | .valueError m => m
  | .attrError m => m
  | .typeError m => m

/-- Python `float(s)` as a fallible computation. -/
def pyFloatE (s : String) : Except PyError Rat :=
  match pyParseFloat? s with
  | some q => .ok q
  | none => .error (.valueError ("could not convert string to float: '" ++ s ++ "'"))

/-- Python `obj.get(k, default)`: dict lookup with default; on a non-dict,
models the raised `AttributeError`. -/
def pyGetAttr (v : Val) (k : String) (dflt : Val) : Except PyError Val :=
  match v with
  | .dict kvs => .ok ((kvs.lookup k).getD dflt)
  | _ => .error (.attrError ("object has no attribute 'get' (key " ++ k ++ ")"))

/-- Python `a or b` on values. -/
def pyOrVal (a b : Val) : Val := if a.truthy then a else b

/-- Python `len(v)`; raises `TypeError` on values with no length. -/
def pyLen (v : Val) : Except PyError Nat :=
  match v with
  | .list xs => .ok xs.length
  | .str s => .ok s.length
  | .dict kvs => .ok kvs.length
  | _ => .error (.typeError "object has no len()")

mutual
/-- Schematic `json.dumps` rendering (the script only interpolates its output
into human-readable markdown, which no verified property inspects). -/
def jsonDumps : Val → String
  | .null => "null"
  | .bool b => if b then "true" else "false"
  | .num q => toString q.num ++ (if q.den == 1 then ".0" else "/" ++ toString q.den)
  | .str s => "\"" ++ s ++ "\""
  | .list xs => "[" ++ jsonDumpsList xs ++ "]"
  | .dict kvs => "\x7b" ++ jsonDumpsKvs kvs ++ "\x7d"

def jsonDumpsList : List Val → String
  | [] => ""
  | [x] => jsonDumps x
  | x :: xs => jsonDumps x ++ ", " ++ jsonDumpsList xs

def jsonDumpsKvs : List (String × Val) → String
  | [] => ""
  | [(k, v)] => "\"" ++ k ++ "\": " ++ jsonDumps v
  | (k, v) :: kvs => "\"" ++ k ++ "\": " ++ jsonDumps v ++ ", " ++ jsonDumpsKvs kvs
end

/-- Python `str(v)` as used in f-string interpolation (exact only for
strings, which is all any verified property inspects). -/
def pyStrVal : Val → String
  | .null => "None"
  | .bool b => if b then "True" else "False"
  | .num q => toString q.num ++ (if q.den == 1 then ".0" else "/" ++ toString q.den)
  | .str s => s
  | v => jsonDumps v

def ENTRY_TYPE_NOTE : Rat := 1
def ENTRY_TYPE_ERROR : Rat := 4

def FORMAT_TEXT : String := "text"
def FORMAT_JSON : String := "json"
def FORMAT_MARKDOWN : String := "markdown"

/-- `make_note_entry` (lines 14-24): the note result artifact.  `Contents`
falls back to the human-readable text, `ContentsFormat` is json exactly for
dict/list contents, and a falsy (absent or empty) context is omitted. -/
def make_note_entry (human_readable : String) (contents : Option Val)
    (context : Option Val) : Val :=
  .dict
    (("Type", Val.num ENTRY_TYPE_NOTE) ::
     ("ContentsFormat", Val.str
        (match contents with
         | some (.dict _) => FORMAT_JSON
         | some (.list _) => FORMAT_JSON
         | _ => FORMAT_TEXT)) ::
     ("Contents", contents.getD (.str human_readable)) ::
     ("ReadableContentsFormat", Val.str FORMAT_MARKDOWN) ::
     ("HumanReadable", Val.str human_readable) ::
     (match context with
      | some c => if c.truthy then [("EntryContext", c)] else []
      | none => []))

/-- `make_error_entry` (lines 27-34): the error result artifact. -/
def make_error_entry (message : String) : Val :=
  .dict
    [("Type", Val.num ENTRY_TYPE_ERROR),
     ("ContentsFormat", Val.str FORMAT_TEXT),
     ("Contents", Val.str message),
     ("ReadableContentsFormat", Val.str FORMAT_TEXT),
     ("HumanReadable", Val.str message)]

/-- An HTTP response as seen by the script: status, body text, the result of
attempting `resp.json()` (`some v` exactly when the body is valid JSON), and
the response headers. -/
structure HttpResponse where
  status_code : Nat
  text : String
  jsonBody : Option Val
  headers : String → Option String

/-- One outbound request: method, full URL, optional JSON body, and whether
the caller asked for the raw response object. -/
structure ClientCall where
  method : String
  url : String
  body : Option Val
  raw : Bool

/-- The HTTP stack: maps an outbound call to a response, or to a raised
network-level exception. -/
def Transport : Type := ClientCall → Except PyError HttpResponse

/-- `LifxClient.__init__` state: base URL (trailing slashes stripped), the
token, and the TLS-verification flag. -/
structure LifxClient where
  base_url : String
  api_token : Option String
  verify : Bool

/-- Python `s.rstrip("/")`. -/
def rstripSlash (s : String) : String :=
  ⟨(s.data.reverse.dropWhile (fun c => c = '/')).reverse⟩

/-- `LifxClient.__init__` (lines 38-47): `(base_url or "").rstrip("/")`. -/
def mkLifxClient (base_url : Option String) (api_token : Option String) (verify : Bool) :
    LifxClient :=
  { base_url := rstripSlash (orDefault base_url ""), api_token, verify }

/-- The `ClientCall` record built by `_request` for given method/path/body. -/
def LifxClient.callOf (c : LifxClient) (method path : String) (body : Option Val)
    (raw : Bool) : ClientCall :=
  { method, url := c.base_url ++ path, body, raw }

/-- Post-processing of a non-raw response (`_request`, lines 60-65): raise on
status ≥ 400, else decode JSON with a raw-text fallback. -/
def processResponse (resp : HttpResponse) : Except PyError Val :=
  if 400 ≤ resp.status_code then .error (.apiError resp.status_code resp.text)
  else .ok (match resp.jsonBody with
            | some v => v
            | none => .str resp.text)

/-- `_request` without `raw_response` (lines 49-65). -/
def LifxClient.request (c : LifxClient) (tr : Transport) (method path : String)
    (body : Option Val) : Except PyError Val :=
  match tr (c.callOf method path body false) with
  | .error e => .error e
  | .ok resp => processResponse resp

/-- `_request` with `raw_response=True` (lines 58-59): the response object is
returned untouched; only transport failures raise. -/
def LifxClient.requestRaw (c : LifxClient) (tr : Transport) (method path : String)
    (body : Option Val) : Except PyError HttpResponse :=
  tr (c.callOf method path body true)

def listLightsCall (c : LifxClient) (selector : String) : ClientCall :=
  c.callOf "GET" ("/lights/" ++ selector) none false

/-- `LifxClient.list_lights`. -/
def LifxClient.list_lights (c : LifxClient) (tr : Transport) (selector : String) :
    Except PyError Val :=
  c.request tr "GET" ("/lights/" ++ selector) none

def setStateCall (c : LifxClient) (selector : String) (payload : Val) : ClientCall :=
  c.callOf "PUT" ("/lights/" ++ selector ++ "/state") (some payload) false

/-- `LifxClient.set_state`. -/
def LifxClient.set_state (c : LifxClient) (tr : Transport) (selector : String)
    (payload : Val) : Except PyError Val :=
  c.request tr "PUT" ("/lights/" ++ selector ++ "/state") (some payload)

def togglePowerCall (c : LifxClient) (selector : String) (payload : Val) : ClientCall :=
  c.callOf "POST" ("/lights/" ++ selector ++ "/toggle") (some payload) false

/-- `LifxClient.toggle_power`. -/
def LifxClient.toggle_power (c : LifxClient) (tr : Transport) (selector : String)
    (payload : Val) : Except PyError Val :=
  c.request tr "POST" ("/lights/" ++ selector ++ "/toggle") (some payload)

def breatheEffectCall (c : LifxClient) (selector : String) (payload : Val) : ClientCall :=
  c.callOf "POST" ("/lights/" ++ selector ++ "/effects/breathe") (some payload) false

/-- `LifxClient.breathe_effect`. -/
def LifxClient.breathe_effect (c : LifxClient) (tr : Transport) (selector : String)
    (payload : Val) : Except PyError Val :=
  c.request tr "POST" ("/lights/" ++ selector ++ "/effects/breathe") (some payload)

def pulseEffectCall (c : LifxClient) (selector : String) (payload : Val) : ClientCall :=
  c.callOf "POST" ("/lights/" ++ selector ++ "/effects/pulse") (some payload) false

/-- `LifxClient.pulse_effect`. -/
def LifxClient.pulse_effect (c : LifxClient) (tr : Transport) (selector : String)
    (payload : Val) : Except PyError Val :=
  c.request tr "POST" ("/lights/" ++ selector ++ "/effects/pulse") (some payload)

def listScenesCall (c : LifxClient) : ClientCall :=
  c.callOf "GET" "/scenes" none false

/-- `LifxClient.list_scenes`. -/
def LifxClient.list_scenes (c : LifxClient) (tr : Transport) : Except PyError Val :=
  c.request tr "GET" "/scenes" none

def activateSceneCall (c : LifxClient) (scene_uuid : String) (payload : Val) :
    ClientCall :=
  c.callOf "PUT" ("/scenes/scene_id:" ++ scene_uuid ++ "/activate") (some payload) true

/-- `LifxClient.activate_scene` (raw response). -/
def LifxClient.activate_scene (c : LifxClient) (tr : Transport) (scene_uuid : String)
    (payload : Val) : Except PyError HttpResponse :=
  c.requestRaw tr "PUT" ("/scenes/scene_id:" ++ scene_uuid ++ "/activate") (some payload)

def getWithHeadersCall (c : LifxClient) (path : String) : ClientCall :=
  c.callOf "GET" path none true

/-- `LifxClient.get_with_headers` (lines 93-99): raw GET, returning the
JSON-or-text body, the headers, and the status code. -/
def LifxClient.get_with_headers (c : LifxClient) (tr : Transport) (path : String) :
    Except PyError (Val × (String → Option String) × Nat) :=
  match c.requestRaw tr "GET" path none with
  | .error e => .error e
  | .ok resp =>
    .ok (match resp.jsonBody with
         | some v => v
         | none => .str resp.text,
         resp.headers, resp.status_code)

/-- `_bool_arg` (lines 102-110). -/
def _bool_arg (val : Option String) : Option Bool :=
  match val with
  | none => none
  | some v0 =>
    let v := pyStrip (pyLower v0)
    if v = "true" ∨ v = "yes" ∨ v = "y" ∨ v = "1" then some true
    else if v = "false" ∨ v = "no" ∨ v = "n" ∨ v = "0" then some false
    else none

/-- `_normalize_severity` (lines 113-123). -/
def _normalize_severity (val : Option String) : Option String :=
  match val with
  | none => none
  | some v0 =>
    let v := pyStrip (pyLower v0)
    if v = "1" ∨ v = "low" then some "low"
    else if v = "2" ∨ v = "medium" ∨ v = "moderate" then some "medium"
    else if v = "3" ∨ v = "high" then some "high"
    else if v = "4" ∨ v = "critical" ∨ v = "crit" then some "critical"
    else none

/-- `_severity_defaults` (lines 126-132). -/
def _severity_defaults (sev : Option String) : String × Nat :=
  if sev = some "low" then ("green", 3)
  else if sev = some "medium" then ("yellow", 5)
  else if sev = some "high" then ("orange", 7)
  else if sev = some "critical" then ("red", 10)
  else ("red", 5)

/-- Unit selection of `_fmt_ts_relative` (lines 149-167): the largest whole
unit ≥ 1 among years (365 days), months (30 days), days, hours, minutes,
seconds, with Python's singular/plural suffix. -/
def fmtRel (secondsN : Nat) : String :=
  let days := secondsN / 86400
  if 365 ≤ days then
    let years := days / 365
    toString years ++ " year" ++ (if years ≠ 1 then "s" else "")
  else if 30 ≤ days then
    let months := days / 30
    toString months ++ " month" ++ (if months ≠ 1 then "s" else "")
  else if 1 ≤ days then
    toString days ++ " day" ++ (if days ≠ 1 then "s" else "")
  else
    let hours := secondsN / 3600
    if 1 ≤ hours then
      toString hours ++ " hour" ++ (if hours ≠ 1 then "s" else "")
    else
      let minutes := secondsN / 60
      if 1 ≤ minutes then
        toString minutes ++ " minute" ++ (if minutes ≠ 1 then "s" else "")
      else
        toString secondsN ++ " second" ++ (if secondsN ≠ 1 then "s" else "")

/-- Tail of `_fmt_ts_relative` after the `int(ts)` conversion attempt:
`t?` is the converted epoch second (`none` models a raised conversion
error, caught and rendered as `str(ts)`); negative deltas render the
absolute timestamp only. -/
def fmtTail (strf : Int → String) (now : Int) (t? : Option Int) (raw : Val) : String :=
  match t? with
  | none => pyStrVal raw
  | some t =>
    let seconds : Int := now - t
    if seconds < 0 then strf t
    else strf t ++ (" (" ++ fmtRel seconds.toNat ++ " ago)")

/-- `_fmt_ts_relative` (lines 135-171).  `strf` models
`datetime.fromtimestamp(t).strftime("%Y-%m-%d %H:%M:%S")`, whose output
depends on the host's local timezone and calendar library and is therefore a
parameter; `now` is the current epoch second.  All conversion failures are
caught (the `except` on line 170), so the function is total and never
raises. -/
def _fmt_ts_relative (strf : Int → String) (now : Int) (ts : Val) : String :=
  match ts with
  | .null => "-"
  | .str s => if s = "" then "-" else fmtTail strf now (pyParseInt? s) (.str s)
  | .num q => fmtTail strf now (some (q.num.tdiv (q.den : Int))) (.num q)
  | .bool b => fmtTail strf now (some (if b then 1 else 0)) (.bool b)
  | v => fmtTail strf now none v

/-- Outcome of running one command handler: the outbound calls it made, the
entries it passed to `demisto.results`, and the exception it raised (if any)
that the dispatcher will catch. -/
structure CmdOut where
  calls : List ClientCall := []
  results : List Val := []
  raised : Option PyError := none

/-- The single-object-to-list normalization
(`if not isinstance(x, list): x = [x]`, lines 179-180 and 365-366). -/
def normList (v : Val) : List Val :=
  match v with
  | .list xs => xs
  | v => [v]

/-- One row of the lights table (lines 193-210). -/
def lightRow (l : Val) : Except PyError String := do
  let lid ← pyGetAttr l "id" (.str "")
  let label ← pyGetAttr l "label" (.str "")
  let power ← pyGetAttr l "power" (.str "")
  let connected ← pyGetAttr l "connected" (.str "")
  let groupObj ← pyGetAttr l "group" .null
  let group ← pyGetAttr (pyOrVal groupObj (.dict [])) "name" (.str "")
  let locObj ← pyGetAttr l "location" .null
  let location ← pyGetAttr (pyOrVal locObj (.dict [])) "name" (.str "")
  let colorRaw ← pyGetAttr l "color" .null
  let color := pyOrVal colorRaw (.dict [])
  let color_str :=
    match color with
    | .dict kvs =>
      "h:" ++ pyStrVal ((kvs.lookup "hue").getD (.str "")) ++
      ", s:" ++ pyStrVal ((kvs.lookup "saturation").getD (.str "")) ++
      ", k:" ++ pyStrVal ((kvs.lookup "kelvin").getD (.str ""))
    | v => pyStrVal v
  let brightness ← pyGetAttr l "brightness" (.str "")
  pure ("| " ++ pyStrVal lid ++ " | " ++ pyStrVal label ++ " | " ++ pyStrVal power ++
    " | " ++ pyStrVal connected ++ " | " ++ pyStrVal group ++ " | " ++
    pyStrVal location ++ " | " ++ color_str ++ " | " ++ pyStrVal brightness ++ " |\n")

def lightRows : List Val → Except PyError String
  | [] => .ok ""
  | l :: ls => do
    let r ← lightRow l
    let rest ← lightRows ls
    pure (r ++ rest)

/-- The markdown built by `lifx_list_lights_command` (lines 182-220). -/
def renderLightsMd (selector : String) (verbose : Option Bool) (lights : List Val) :
    Except PyError String := do
  let header :=
    "## LIFX Lights (selector=\"" ++ selector ++ "\")\n\n" ++
    "| ID | Label | Power | Connected | Group | Location | Color | Brightness |\n" ++
    "|----|-------|-------|-----------|-------|----------|-------|------------|\n"
  let rows ← lightRows lights
  let rawPart :=
    if verbose.getD false then
      "\n### Raw JSON\n```json\n" ++ jsonDumps (.list lights) ++ "\n```\n"
    else ""
  pure (header ++ rows ++ rawPart)

/-- `lifx_list_lights_command` (lines 174-222). -/
def lifx_list_lights_command (c : LifxClient) (tr : Transport) (args : Args) : CmdOut :=
  let selector := orDefault (args "selector") "all"
  let verbose := _bool_arg (args "verbose")
  match c.list_lights tr selector with
  | .error e => { calls := [listLightsCall c selector], raised := some e }
  | .ok lightsRaw =>
    let lights := normList lightsRaw
    match renderLightsMd selector verbose lights with
    | .error e => { calls := [listLightsCall c selector], raised := some e }
    | .ok md =>
      { calls := [listLightsCall c selector],
        results := [make_note_entry md (some (.list lights))
          (some (.dict [("LIFX.Light", .list lights)]))] }

/-- One numeric field gated on presence (`if args.get(f) is not None:`,
lines 233-235): a present field is converted with `float`, which can
raise. -/
def stepPresent (args : Args) (acc : Except PyError (List (String × Val)))
    (f : String) : Except PyError (List (String × Val)) :=
  acc.bind (fun p =>
    match args f with
    | none => .ok p
    | some s => (pyFloatE s).map (fun q => p ++ [(f, Val.num q)]))

/-- Numeric fields gated on presence, in field order. -/
def floatFieldsPresent (args : Args) (fields : List String)
    (init : List (String × Val)) : Except PyError (List (String × Val)) :=
  fields.foldl (stepPresent args) (.ok init)

/-- One numeric field gated on truthiness (`if args.get(f):`, lines 294-296
and 333-335): only a non-empty value is converted with `float`. -/
def stepTruthy (args : Args) (acc : Except PyError (List (String × Val)))
    (f : String) : Except PyError (List (String × Val)) :=
  acc.bind (fun p =>
    match truthyStrOpt (args f) with
    | none => .ok p
    | some s => (pyFloatE s).map (fun q => p ++ [(f, Val.num q)]))

/-- Numeric fields gated on truthiness, in field order. -/
def floatFieldsTruthy (args : Args) (fields : List String)
    (init : List (String × Val)) : Except PyError (List (String × Val)) :=
  fields.foldl (stepTruthy args) (.ok init)

/-- Optional string fields gated on truthiness (`if args.get(f):`,
lines 229-231). -/
def strField (args : Args) (f : String) : List (String × Val) :=
  match truthyStrOpt (args f) with
  | some s => [(f, Val.str s)]
  | none => []

/-- Optional boolean field via `_bool_arg`, included only when the coercion
decided (lines 237-239 etc.). -/
def boolField (args : Args) (f : String) : List (String × Val) :=
  match _bool_arg (args f) with
  | some b => [(f, Val.bool b)]
  | none => []

/-- `lifx_set_state_command` (lines 225-257). -/
def lifx_set_state_command (c : LifxClient) (tr : Transport) (args : Args) : CmdOut :=
  let selector := orDefault (args "selector") "all"
  let p1 := strField args "power" ++ strField args "color"
  match floatFieldsPresent args ["brightness", "duration", "infrared"] p1 with
  | .error e => { raised := some e }
  | .ok p2 =>
    let p3 := p2 ++ boolField args "fast"
    if p3.isEmpty then
      { results := [make_error_entry "No state fields were provided."] }
    else
      match c.set_state tr selector (.dict p3) with
      | .error e => { calls := [setStateCall c selector (.dict p3)], raised := some e }
      | .ok result =>
        { calls := [setStateCall c selector (.dict p3)],
          results := [make_note_entry
            ("## LIFX Set State (selector=\"" ++ selector ++ "\")\n\n```json\n" ++
             jsonDumps result ++ "\n```\n")
            (some result) (some (.dict [("LIFX.State", result)]))] }

/-- `lifx_toggle_power_command` (lines 260-280). -/
def lifx_toggle_power_command (c : LifxClient) (tr : Transport) (args : Args) : CmdOut :=
  let selector := orDefault (args "selector") "all"
  match floatFieldsTruthy args ["duration"] [] with
  | .error e => { raised := some e }
  | .ok p =>
    match c.toggle_power tr selector (.dict p) with
    | .error e => { calls := [togglePowerCall c selector (.dict p)], raised := some e }
    | .ok result =>
      { calls := [togglePowerCall c selector (.dict p)],
        results := [make_note_entry
          ("## LIFX Toggle Power (selector=\"" ++ selector ++ "\")\n\n```json\n" ++
           jsonDumps result ++ "\n```\n")
          (some result) (some (.dict [("LIFX.Toggle", result)]))] }

/-- `lifx_breathe_effect_command` (lines 283-319). -/
def lifx_breathe_effect_command (c : LifxClient) (tr : Transport) (args : Args) :
    CmdOut :=
  let selector := orDefault (args "selector") "all"
  match truthyStrOpt (args "color") with
  | none =>
    { results := [make_error_entry "color argument is required for lifx-breathe-effect"] }
  | some color =>
    let p1 := [("color", Val.str color)] ++ strField args "from_color"
    match floatFieldsTruthy args ["period", "cycles", "peak"] p1 with
    | .error e => { raised := some e }
    | .ok p2 =>
      let p3 := p2 ++ boolField args "persist" ++ boolField args "power_on"
      match c.breathe_effect tr selector (.dict p3) with
      | .error e =>
        { calls := [breatheEffectCall c selector (.dict p3)], raised := some e }
      | .ok result =>
        { calls := [breatheEffectCall c selector (.dict p3)],
          results := [make_note_entry
            ("## LIFX Breathe Effect (selector=\"" ++ selector ++ "\")\n\n```json\n" ++
             jsonDumps result ++ "\n```\n")
            (some result) (some (.dict [("LIFX.Breathe", result)]))] }

/-- `lifx_pulse_effect_command` (lines 322-358). -/
def lifx_pulse_effect_command (c : LifxClient) (tr : Transport) (args : Args) :
    CmdOut :=
  let selector := orDefault (args "selector") "all"
  match truthyStrOpt (args "color") with
  | none =>
    { results := [make_error_entry "color argument is required for lifx-pulse-effect"] }
  | some color =>
    let p1 := [("color", Val.str color)] ++ strField args "from_color"
    match floatFieldsTruthy args ["period", "cycles"] p1 with
    | .error e => { raised := some e }
    | .ok p2 =>
      let p3 := p2 ++ boolField args "persist" ++ boolField args "power_on"
      match c.pulse_effect tr selector (.dict p3) with
      | .error e =>
        { calls := [pulseEffectCall c selector (.dict p3)], raised := some e }
      | .ok result =>
        { calls := [pulseEffectCall c selector (.dict p3)],
          results := [make_note_entry
            ("## LIFX Pulse Effect (selector=\"" ++ selector ++ "\")\n\n```json\n" ++
             jsonDumps result ++ "\n```\n")
            (some result) (some (.dict [("LIFX.Pulse", result)]))] }

/-- Python `for x in v`: list elements, string characters, dict keys;
raises `TypeError` otherwise. -/
def pyIter (v : Val) : Except PyError (List Val) :=
  match v with
  | .list xs => .ok xs
  | .str s => .ok (s.data.map (fun ch => Val.str ⟨[ch]⟩))
  | .dict kvs => .ok (kvs.map (fun kv => Val.str kv.1))
  | _ => .error (.typeError "object is not iterable")

/-- Python `str(x)` of an optional string (f-string interpolation of a
possibly-`None` variable). -/
def pyStrOpt (v : Option String) : String :=
  match v with
  | some s => s
  | none => "None"

/-- One summary row of the scenes table (lines 379-390). -/
def sceneSummaryRow (strf : Int → String) (now : Int) (s : Val) :
    Except PyError String := do
  let name ← pyGetAttr s "name" (.str "-")
  let uuid ← pyGetAttr s "uuid" (.str "-")
  let st1 ← pyGetAttr s "states" .null
  let st2 ← pyGetAttr s "lights" .null
  let states := pyOrVal st1 (pyOrVal st2 (.list []))
  let n ← pyLen states
  let createdV ← pyGetAttr s "created_at" .null
  let updatedV ← pyGetAttr s "updated_at" .null
  pure ("| " ++ pyStrVal name ++ " | " ++ pyStrVal uuid ++ " | " ++ toString n ++
    " | " ++ _fmt_ts_relative strf now createdV ++ " | " ++
    _fmt_ts_relative strf now updatedV ++ " |\n")

def sceneSummaryRows (strf : Int → String) (now : Int) : List Val →
    Except PyError String
  | [] => .ok ""
  | s :: ss => do
    let r ← sceneSummaryRow strf now s
    let rest ← sceneSummaryRows strf now ss
    pure (r ++ rest)

/-- One per-light row of a scene detail table (lines 414-435). -/
def sceneStateRow (i : Nat) (st : Val) : Except PyError String := do
  let state_obj ← pyGetAttr st "state" st
  let sel1 ← pyGetAttr st "selector" .null
  let sel2 ← pyGetAttr state_obj "selector" .null
  let sel3 ← pyGetAttr state_obj "label" .null
  let sel4 ← pyGetAttr state_obj "serial_number" .null
  let selector := pyOrVal sel1 (pyOrVal sel2 (pyOrVal sel3 (pyOrVal sel4 (.str "-"))))
  let brightness ← pyGetAttr state_obj "brightness" (.str "")
  let colorRaw ← pyGetAttr state_obj "color" (.dict [])
  let color := pyOrVal colorRaw (.dict [])
  let hueD ← pyGetAttr state_obj "hue" (.str "")
  let hue ← pyGetAttr color "hue" hueD
  let satD ← pyGetAttr state_obj "saturation" (.str "")
  let sat ← pyGetAttr color "saturation" satD
  let kelD ← pyGetAttr state_obj "kelvin" (.str "")
  let kelvin ← pyGetAttr color "kelvin" kelD
  pure ("| " ++ toString i ++ " | " ++ pyStrVal selector ++ " | " ++
    pyStrVal brightness ++ " | " ++ pyStrVal hue ++ " | " ++ pyStrVal sat ++
    " | " ++ pyStrVal kelvin ++ " |\n")

def sceneStateRows (i : Nat) : List Val → Except PyError String
  | [] => .ok ""
  | st :: rest => do
    let r ← sceneStateRow i st
    let rs ← sceneStateRows (i + 1) rest
    pure (r ++ rs)

/-- The detail section for one scene (lines 392-438). -/
def sceneDetail (idx : Nat) (s : Val) : Except PyError String := do
  let name ← pyGetAttr s "name" (.str "-")
  let uuid ← pyGetAttr s "uuid" (.str "-")
  let st1 ← pyGetAttr s "states" .null
  let st2 ← pyGetAttr s "lights" .null
  let states := pyOrVal st1 (pyOrVal st2 (.list []))
  let head :=
    "\n---\n### Scene " ++ toString idx ++ ": `" ++ pyStrVal name ++ "`\n\n" ++
    "**UUID:** `" ++ pyStrVal uuid ++ "`\n\n"
  if states.truthy then do
    let items ← pyIter states
    let rows ← sceneStateRows 1 items
    pure (head ++
      "| Index | Selector | Brightness | Hue | Saturation | Kelvin |\n" ++
      "|------:|----------|-----------:|----:|-----------:|-------:|\n" ++ rows)
  else
    pure (head ++ "_No lights found in this scene._\n")

def sceneDetails (idx : Nat) : List Val → Except PyError String
  | [] => .ok ""
  | s :: ss => do
    let d ← sceneDetail idx s
    let rest ← sceneDetails (idx + 1) ss
    pure (d ++ rest)

/-- The markdown built by `lifx_list_scenes_command` (lines 368-448). -/
def renderScenesMd (strf : Int → String) (now : Int) (verbose : Option Bool)
    (scenes : List Val) : Except PyError String := do
  let header :=
    "## LIFX Scenes\n\n" ++
    "| Name | UUID | Lights | Created At | Updated At |\n" ++
    "|------|------|--------|------------|------------|\n"
  let summary ← sceneSummaryRows strf now scenes
  let details ← sceneDetails 1 scenes
  let rawPart :=
    if verbose.getD false then
      "\n### Raw JSON\n```json\n" ++ jsonDumps (.list scenes) ++ "\n```\n"
    else ""
  pure (header ++ summary ++ details ++ rawPart)

/-- `lifx_list_scenes_command` (lines 361-450). -/
def lifx_list_scenes_command (c : LifxClient) (tr : Transport) (strf : Int → String)
    (now : Int) (args : Args) : CmdOut :=
  let verbose := _bool_arg (args "verbose")
  match c.list_scenes tr with
  | .error e => { calls := [listScenesCall c], raised := some e }
  | .ok scenesRaw =>
    let scenes := normList scenesRaw
    match renderScenesMd strf now verbose scenes with
    | .error e => { calls := [listScenesCall c], raised := some e }
    | .ok md =>
      { calls := [listScenesCall c],
        results := [make_note_entry md (some (.list scenes))
          (some (.dict [("LIFX.Scene", .list scenes)]))] }

/-- `lifx_activate_scene_command` (lines 453-479). -/
def lifx_activate_scene_command (c : LifxClient) (tr : Transport) (args : Args) :
    CmdOut :=
  match truthyStrOpt (args "scene_uuid") with
  | none => { results := [make_error_entry "scene_uuid argument is required"] }
  | some uuid =>
    match floatFieldsTruthy args ["duration"] [] with
    | .error e => { raised := some e }
    | .ok p1 =>
      let p2 := p1 ++ boolField args "fast"
      match c.activate_scene tr uuid (.dict p2) with
      | .error e =>
        { calls := [activateSceneCall c uuid (.dict p2)], raised := some e }
      | .ok resp =>
        let result := Val.dict [("status", .num resp.status_code)]
        { calls := [activateSceneCall c uuid (.dict p2)],
          results := [make_note_entry
            ("## LIFX Activate Scene\n\nScene UUID: `" ++ uuid ++ "`  \n" ++
             "HTTP Status: `" ++ toString resp.status_code ++ "`\n")
            (some result) (some (.dict [("LIFX.SceneActivation", result)]))] }

/-- The values computed by `lifx_alert_flash_command` before the pulse call
(lines 483-505). -/
structure AlertComputed where
  severity_raw : Option String
  severity : Option String
  color : String
  cycles : Rat
  period : Rat
  payload : Val

/-- Severity-default composition and payload construction of
`lifx_alert_flash_command` (lines 483-505): an explicit color wins over the
severity default, cycles/period resolve explicit-over-default independently,
`persist` defaults to false and `power_on` to true. -/
def alert_flash_compute (args : Args) : Except PyError AlertComputed :=
  let severity_raw := args "severity"
  let severity := _normalize_severity severity_raw
  let d :=
    if pyTruthyOpt severity then _severity_defaults severity
    else ("red", 5)
  let color := orDefault (args "color") d.1
  match (match truthyStrOpt (args "cycles") with
         | some s => pyFloatE s
         | none => .ok (d.2 : Rat)) with
  | .error e => .error e
  | .ok cycles =>
    match (match truthyStrOpt (args "period") with
           | some s => pyFloatE s
           | none => .ok ((7 : Rat) / 10)) with
    | .error e => .error e
    | .ok period =>
      let persist := _bool_arg (args "persist")
      let power_on := _bool_arg (args "power_on")
      .ok
        { severity_raw, severity, color, cycles, period,
          payload := .dict
            [("color", .str color),
             ("cycles", .num cycles),
             ("period", .num period),
             ("persist", .bool (persist.getD false)),
             ("power_on", .bool (power_on.getD true))] }

/-- `lifx_alert_flash_command` (lines 482-524). -/
def lifx_alert_flash_command (c : LifxClient) (tr : Transport) (args : Args) :
    CmdOut :=
  let selector := orDefault (args "selector") "all"
  match alert_flash_compute args with
  | .error e => { raised := some e }
  | .ok a =>
    match c.pulse_effect tr selector a.payload with
    | .error e => { calls := [pulseEffectCall c selector a.payload], raised := some e }
    | .ok result =>
      { calls := [pulseEffectCall c selector a.payload],
        results := [make_note_entry
          ("## LIFX Alert Flash\n\n- Selector: `" ++ selector ++ "`\n" ++
           "- Severity: `" ++ pyStrOpt a.severity_raw ++ "` (normalized: `" ++
           pyStrOpt a.severity ++ "`)\n" ++
           "- Color: `" ++ a.color ++ "`\n" ++
           "- Cycles: `" ++ pyStrVal (.num a.cycles) ++ "`\n" ++
           "- Period: `" ++ pyStrVal (.num a.period) ++ "`\n")
          (some result) (some (.dict [("LIFX.AlertFlash", result)]))] }

/-- The diagnostic record of `lifx_test_connection_command` (lines 530-551),
in dict insertion order.  `latency_ms` models the measured
`int((time.time() - start) * 1000)`. -/
def connectionDiag (c : LifxClient) (selector statusS : String) (lightsReturned : Nat)
    (errS : String) (latency_ms : Int) : Val :=
  .dict
    [("BaseURL", .str c.base_url),
     ("Selector", .str selector),
     ("VerifySSL", .bool c.verify),
     ("Status", .str statusS),
     ("LightsReturned", .num lightsReturned),
     ("Error", .str errS),
     ("LatencyMS", .num latency_ms)]

/-- The markdown table of `lifx_test_connection_command` (lines 553-574). -/
def connectionMd (c : LifxClient) (selector statusS : String) (lightsReturned : Nat)
    (errS : String) (latency_ms : Int) : String :=
  "## LIFX Connection Test\n\n| Field | Value |\n|-------|-------|\n" ++
  "| **Base URL** | `" ++ c.base_url ++ "` |\n" ++
  "| **Selector** | `" ++ selector ++ "` |\n" ++
  "| **Verify SSL** | `" ++ pyStrVal (.bool c.verify) ++ "` |\n" ++
  "| **Status** | `" ++ statusS ++ "` |\n" ++
  "| **Lights Found** | `" ++ toString lightsReturned ++ "` |\n" ++
  "| **Latency (ms)** | `" ++ toString latency_ms ++ "` |\n" ++
  "| **Error** | `" ++ (if errS = "" then "(none)" else errS) ++ "` |\n"

/-- `lifx_test_connection_command` (lines 527-577): the probe that never
raises outward; a failing light-list call is folded into the diagnostic. -/
def lifx_test_connection_command (c : LifxClient) (tr : Transport)
    (latency_ms : Int) (args : Args) : CmdOut :=
  let selector := orDefault (args "selector") "all"
  match c.list_lights tr selector with
  | .ok v =>
    let lights := normList v
    let diag := connectionDiag c selector "success" lights.length "" latency_ms
    let context := Val.dict
      [("LIFX.ConnectionTest", .dict [("Info", diag), ("Lights", .list lights)])]
    { calls := [listLightsCall c selector],
      results := [make_note_entry
        (connectionMd c selector "success" lights.length "" latency_ms)
        (some context) (some context)] }
  | .error e =>
    let diag := connectionDiag c selector "failed" 0 e.message latency_ms
    let context := Val.dict
      [("LIFX.ConnectionTest", .dict [("Info", diag), ("Lights", .list [])])]
    { calls := [listLightsCall c selector],
      results := [make_note_entry
        (connectionMd c selector "failed" 0 e.message latency_ms)
        (some context) (some context)] }

/-- Python `a or b or c` over optional header values (lines 585-586). -/
def orChain (a : Option String) (b : String) : String :=
  match truthyStrOpt a with
  | some s => s
  | none => b

/-- `lifx_health_check_command` (lines 580-625). -/
def lifx_health_check_command (c : LifxClient) (tr : Transport)
    (strf : Int → String) (now : Int) (latency_ms : Int) (args : Args) : CmdOut :=
  match c.get_with_headers tr "/lights/all" with
  | .error e => { calls := [getWithHeadersCall c "/lights/all"], raised := some e }
  | .ok (_, headers, status) =>
    let remaining := orChain (headers "X-RateLimit-Remaining")
      (orChain (headers "X-RateLimit-Remaining-Short") "-")
    let limit := orChain (headers "X-RateLimit-Limit")
      (orChain (headers "X-RateLimit-Limit-Short") "-")
    let reset_raw := orChain (headers "X-RateLimit-Reset") "-"
    let reset :=
      if reset_raw ≠ "" ∧ reset_raw ≠ "-" then
        _fmt_ts_relative strf now (.str reset_raw)
      else "-"
    let ok := decide (200 ≤ status ∧ status < 400)
    let context := Val.dict
      [("LIFX.HealthCheck", .dict
        [("Status", .num status),
         ("LatencyMS", .num latency_ms),
         ("RateLimit", .str limit),
         ("RateRemaining", .str remaining),
         ("RateReset", .str reset),
         ("OK", .bool ok)])]
    { calls := [getWithHeadersCall c "/lights/all"],
      results := [make_note_entry
        ("## LIFX Health Check\n\n| Field | Value |\n|-------|-------|\n" ++
         "| **HTTP Status** | `" ++ toString status ++ "` |\n" ++
         "| **Latency (ms)** | `" ++ toString latency_ms ++ "` |\n" ++
         "| **Rate Limit** | `" ++ limit ++ "` |\n" ++
         "| **Rate Remaining** | `" ++ remaining ++ "` |\n" ++
         "| **Rate Reset** | `" ++ reset ++ "` |\n" ++
         "| **OK** | `" ++ pyStrVal (.bool ok) ++ "` |\n")
        (some context) (some context)] }

/-- `test_module` (lines 628-630): one light-list call, then the bare string
result `"ok"`. -/
def test_module_command (c : LifxClient) (tr : Transport) : CmdOut :=
  match c.list_lights tr "all" with
  | .error e => { calls := [listLightsCall c "all"], raised := some e }
  | .ok _ => { calls := [listLightsCall c "all"], results := [Val.str "ok"] }

/-- Modelled from the spec: `demisto.results` belongs to the XSOAR host
runtime, which is not part of this repository.  Per the spec (sections 3
and 6) every artifact delivered to the host is a note or an error variant;
the host renders a bare non-entry value (such as the string `"ok"` returned
by `test-module`) as a note artifact. -/
def demisto_results_render (v : Val) : Val :=
  match v with
  | .dict kvs => .dict kvs
  | v =>
    .dict
      [("Type", Val.num ENTRY_TYPE_NOTE),
       ("ContentsFormat", Val.str FORMAT_TEXT),
       ("Contents", v),
       ("ReadableContentsFormat", Val.str FORMAT_TEXT),
       ("HumanReadable", Val.str (pyStrVal v))]

/-- The command-name switch of `main` (lines 649-673). -/
def dispatch (c : LifxClient) (tr : Transport) (strf : Int → String) (now : Int)
    (latency_ms : Int) (cmd : String) (args : Args) : CmdOut :=
  if cmd = "test-module" then test_module_command c tr
  else if cmd = "lifx-list-lights" then lifx_list_lights_command c tr args
  else if cmd = "lifx-set-state" then lifx_set_state_command c tr args
  else if cmd = "lifx-toggle-power" then lifx_toggle_power_command c tr args
  else if cmd = "lifx-breathe-effect" then lifx_breathe_effect_command c tr args
  else if cmd = "lifx-pulse-effect" then lifx_pulse_effect_command c tr args
  else if cmd = "lifx-list-scenes" then lifx_list_scenes_command c tr strf now args
  else if cmd = "lifx-activate-scene" then lifx_activate_scene_command c tr args
  else if cmd = "lifx-alert-flash" then lifx_alert_flash_command c tr args
  else if cmd = "lifx-test-connection" then lifx_test_connection_command c tr latency_ms args
  else if cmd = "lifx-health-check" then lifx_health_check_command c tr strf now latency_ms args
  else { results := [make_error_entry ("Command '" ++ cmd ++ "' is not implemented.")] }

/-- The per-invocation output delivered to the host: outbound calls and the
rendered result artifacts. -/
structure MainOut where
  calls : List ClientCall
  results : List Val

/-- The `try/except` boundary of `main` (lines 649-675): entries already
emitted stay, and a caught exception appends one error artifact naming the
command. -/
def mainFinish (cmd : String) (o : CmdOut) : MainOut :=
  { calls := o.calls,
    results :=
      (o.results ++
        (match o.raised with
         | some e =>
           [make_error_entry ("Failed to execute '" ++ cmd ++ "'. Error: " ++ e.message)]
         | none => [])).map demisto_results_render }

/-- `main` (lines 633-675).  The host configuration arrives as an argument
mapping; `verify = not insecure` uses Python truthiness of the `insecure`
parameter value. -/
def main (params : Args) (tr : Transport) (strf : Int → String) (now : Int)
    (latency_ms : Int) (cmd : String) (args : Args) : MainOut :=
  let client := mkLifxClient (params "url") (params "api_token")
    (!pyTruthyOpt (params "insecure"))
  mainFinish cmd (dispatch client tr strf now latency_ms cmd args)

/-- The per-invocation artifact discipline a handler run can exhibit: either
exactly one emitted entry that the host renders as a note or an error and no
pending exception, or no emitted entry and a pending exception (which the
dispatcher converts into exactly one error artifact). -/
def GoodCmd (o : CmdOut) : Prop :=
  (∃ v, o.results = [v] ∧ o.raised = none ∧
    (Val.get (demisto_results_render v) "Type" = some (.num ENTRY_TYPE_NOTE) ∨
     Val.get (demisto_results_render v) "Type" = some (.num ENTRY_TYPE_ERROR))) ∨
  (o.results = [] ∧ o.raised.isSome = true)

/-! Concrete fixtures used by witness and counterexample theorems. -/

def demoArgs : Args := fun _ => none

def demoClient : LifxClient :=
  { base_url := "https://api.lifx.com/v1", api_token := some "demo-token", verify := true }

def strf0 : Int → String := fun _ => "1970-01-01 00:00:00"

def failTransport : Transport := fun _ => .error (.netError "Connection refused")

def resp404 : HttpResponse :=
  { status_code := 404, text := "Not found", jsonBody := none, headers := fun _ => none }

def tr404 : Transport := fun _ => .ok resp404

def respOkJson : HttpResponse :=
  { status_code := 200, text := "[]", jsonBody := some (.list []), headers := fun _ => none }

def trOkJson : Transport := fun _ => .ok respOkJson

def demoLight : Val :=
  .dict [("id", .str "d073d5"), ("label", .str "Desk"), ("power", .str "on"),
         ("connected", .bool true), ("brightness", .num 1)]

def respOneLight : HttpResponse :=
  { status_code := 200, text := "", jsonBody := some demoLight, headers := fun _ => none }

def trOneLight : Transport := fun _ => .ok respOneLight

def demoScene : Val := .dict [("name", .str "Evening"), ("uuid", .str "scene-1")]

def respOneScene : HttpResponse :=
  { status_code := 200, text := "", jsonBody := some demoScene, headers := fun _ => none }

def trOneScene : Transport := fun _ => .ok respOneScene

def cexHeaders : String → Option String :=
  fun k => if k = "X-RateLimit-Reset-Short" then some "1600000000" else none

def cexResp : HttpResponse :=
  { status_code := 200, text := "[]", jsonBody := some (.list []), headers := cexHeaders }

def cexTransport : Transport := fun _ => .ok cexResp

def fullHeaders : String → Option String :=
  fun k =>
    if k = "X-RateLimit-Limit" then some "120"
    else if k = "X-RateLimit-Remaining-Short" then some "59"
    else none

def respHdrs : HttpResponse :=
  { status_code := 207, text := "not json", jsonBody := none, headers := fullHeaders }

def trHdrs : Transport := fun _ => .ok respHdrs

def alertArgsCrit : Args := fun k => if k = "severity" then some "critical" else none

def alertArgsCritBlue : Args :=
  fun k =>
    if k = "color" then some "blue"
    else if k = "severity" then some "critical"
    else none

def badBrightnessArgs : Args := fun k => if k = "brightness" then some "" else none

/-! Theorems. -/

theorem note_entry_type (hr : String) (ct cx : Option Val) :
    Val.get (make_note_entry hr ct cx) "Type" = some (.num ENTRY_TYPE_NOTE) := rfl

theorem error_entry_type (msg : String) :
    Val.get (make_error_entry msg) "Type" = some (.num ENTRY_TYPE_ERROR) := rfl

theorem render_note_type (hr : String) (ct cx : Option Val) :
    Val.get (demisto_results_render (make_note_entry hr ct cx)) "Type" =
      some (.num ENTRY_TYPE_NOTE) := rfl

theorem render_error_type (msg : String) :
    Val.get (demisto_results_render (make_error_entry msg)) "Type" =
      some (.num ENTRY_TYPE_ERROR) := rfl

theorem goodNote (cs : List ClientCall) (md : String) (ct cx : Option Val) :
    GoodCmd { calls := cs, results := [make_note_entry md ct cx], raised := none } :=
  Or.inl ⟨_, rfl, rfl, Or.inl (render_note_type md ct cx)⟩

theorem goodErrEntry (cs : List ClientCall) (msg : String) :
    GoodCmd { calls := cs, results := [make_error_entry msg], raised := none } :=
  Or.inl ⟨_, rfl, rfl, Or.inr (render_error_type msg)⟩

theorem goodRaised (cs : List ClientCall) (e : PyError) :
    GoodCmd { calls := cs, results := [], raised := some e } :=
  Or.inr ⟨rfl, rfl⟩

theorem goodOkStr (cs : List ClientCall) :
    GoodCmd { calls := cs, results := [Val.str "ok"], raised := none } :=
  Or.inl ⟨_, rfl, rfl, Or.inl rfl⟩

theorem good_test_module (c : LifxClient) (tr : Transport) :
    GoodCmd (test_module_command c tr) := by
  unfold test_module_command
  split
  · exact goodRaised _ _
  · exact goodOkStr _

theorem good_list_lights (c : LifxClient) (tr : Transport) (args : Args) :
    GoodCmd (lifx_list_lights_command c tr args) := by
  simp only [lifx_list_lights_command]
  split
  · exact goodRaised _ _
  · split
    · exact goodRaised _ _
    · exact goodNote _ _ _ _

theorem good_set_state (c : LifxClient) (tr : Transport) (args : Args) :
    GoodCmd (lifx_set_state_command c tr args) := by
  simp only [lifx_set_state_command]
  split
  · exact goodRaised _ _
  · split
    · exact goodErrEntry _ _
    · split
      · exact goodRaised _ _
      · exact goodNote _ _ _ _

theorem good_toggle_power (c : LifxClient) (tr : Transport) (args : Args) :
    GoodCmd (lifx_toggle_power_command c tr args) := by
  simp only [lifx_toggle_power_command]
  split
  · exact goodRaised _ _
  · split
    · exact goodRaised _ _
    · exact goodNote _ _ _ _

theorem good_breathe (c : LifxClient) (tr : Transport) (args : Args) :
    GoodCmd (lifx_breathe_effect_command c tr args) := by
  simp only [lifx_breathe_effect_command]
  split
  · exact goodErrEntry _ _
  · split
    · exact goodRaised _ _
    · split
      · exact goodRaised _ _
      · exact goodNote _ _ _ _

theorem good_pulse (c : LifxClient) (tr : Transport) (args : Args) :
    GoodCmd (lifx_pulse_effect_command c tr args) := by
  simp only [lifx_pulse_effect_command]
  split
  · exact goodErrEntry _ _
  · split
    · exact goodRaised _ _
    · split
      · exact goodRaised _ _
      · exact goodNote _ _ _ _

theorem good_list_scenes (c : LifxClient) (tr : Transport) (strf : Int → String)
    (now : Int) (args : Args) :
    GoodCmd (lifx_list_scenes_command c tr strf now args) := by
  simp only [lifx_list_scenes_command]
  split
  · exact goodRaised _ _
  · split
    · exact goodRaised _ _
    · exact goodNote _ _ _ _

theorem good_activate_scene (c : LifxClient) (tr : Transport) (args : Args) :
    GoodCmd (lifx_activate_scene_command c tr args) := by
  simp only [lifx_activate_scene_command]
  split
  · exact goodErrEntry _ _
  · split
    · exact goodRaised _ _
    · split
      · exact goodRaised _ _
      · exact goodNote _ _ _ _

theorem good_alert_flash (c : LifxClient) (tr : Transport) (args : Args) :
    GoodCmd (lifx_alert_flash_command c tr args) := by
  simp only [lifx_alert_flash_command]
  split
  · exact goodRaised _ _
  · split
    · exact goodRaised _ _
    · exact goodNote _ _ _ _

theorem good_test_connection (c : LifxClient) (tr : Transport) (lat : Int)
    (args : Args) :
    GoodCmd (lifx_test_connection_command c tr lat args) := by
  simp only [lifx_test_connection_command]
  split
  · exact goodNote _ _ _ _
  · exact goodNote _ _ _ _

theorem good_health_check (c : LifxClient) (tr : Transport) (strf : Int → String)
    (now lat : Int) (args : Args) :
    GoodCmd (lifx_health_check_command c tr strf now lat args) := by
  simp only [lifx_health_check_command]
  split
  · exact goodRaised _ _
  · exact goodNote _ _ _ _

theorem dispatch_good (c : LifxClient) (tr : Transport) (strf : Int → String)
    (now lat : Int) (cmd : String) (args : Args) :
    GoodCmd (dispatch c tr strf now lat cmd args) := by
  unfold dispatch
  by_cases h1 : cmd = "test-module"
  · rw [if_pos h1]; exact good_test_module c tr
  rw [if_neg h1]
  by_cases h2 : cmd = "lifx-list-lights"
  · rw [if_pos h2]; exact good_list_lights c tr args
  rw [if_neg h2]
  by_cases h3 : cmd = "lifx-set-state"
  · rw [if_pos h3]; exact good_set_state c tr args
  rw [if_neg h3]
  by_cases h4 : cmd = "lifx-toggle-power"
  · rw [if_pos h4]; exact good_toggle_power c tr args
  rw [if_neg h4]
  by_cases h5 : cmd = "lifx-breathe-effect"
  · rw [if_pos h5]; exact good_breathe c tr args
  rw [if_neg h5]
  by_cases h6 : cmd = "lifx-pulse-effect"
  · rw [if_pos h6]; exact good_pulse c tr args
  rw [if_neg h6]
  by_cases h7 : cmd = "lifx-list-scenes"
  · rw [if_pos h7]; exact good_list_scenes c tr strf now args
  rw [if_neg h7]
  by_cases h8 : cmd = "lifx-activate-scene"
  · rw [if_pos h8]; exact good_activate_scene c tr args
  rw [if_neg h8]
  by_cases h9 : cmd = "lifx-alert-flash"
  · rw [if_pos h9]; exact good_alert_flash c tr args
  rw [if_neg h9]
  by_cases h10 : cmd = "lifx-test-connection"
  · rw [if_pos h10]; exact good_test_connection c tr lat args
  rw [if_neg h10]
  by_cases h11 : cmd = "lifx-health-check"
  · rw [if_pos h11]; exact good_health_check c tr strf now lat args
  rw [if_neg h11]
  exact goodErrEntry _ _

theorem mainFinish_single (cmd : String) (o : CmdOut) (h : GoodCmd o) :
    ∃ entry, (mainFinish cmd o).results = [entry] ∧
      (Val.get entry "Type" = some (.num ENTRY_TYPE_NOTE) ∨
       Val.get entry "Type" = some (.num ENTRY_TYPE_ERROR)) := by
  rcases h with ⟨v, hres, hraised, hty⟩ | ⟨hres, hraised⟩
  · exact ⟨demisto_results_render v, by simp [mainFinish, hres, hraised], hty⟩
  · rcases Option.isSome_iff_exists.mp hraised with ⟨e, he⟩
    exact ⟨demisto_results_render
        (make_error_entry ("Failed to execute '" ++ cmd ++ "'. Error: " ++ e.message)),
      by simp [mainFinish, hres, he],
      Or.inr (render_error_type _)⟩

/-- C9: for every invocation — any command name (known or unknown) and any
argument mapping — the dispatcher causes exactly one top-level result
artifact to be emitted, and that artifact is a note or an error variant:
never zero artifacts and never more than one. -/
theorem main_single_artifact (params : Args) (tr : Transport) (strf : Int → String)
    (now lat : Int) (cmd : String) (args : Args) :
    ∃ entry, (main params tr strf now lat cmd args).results = [entry] ∧
      (Val.get entry "Type" = some (.num ENTRY_TYPE_NOTE) ∨
       Val.get entry "Type" = some (.num ENTRY_TYPE_ERROR)) := by
  simp only [main]
  exact mainFinish_single cmd _ (dispatch_good _ tr strf now lat cmd args)

/-- C6: for every non-raw request made through the HTTP client wrapper, a
response with status ≥ 400 makes the call fail with the API error carrying
the status code and the response body text, while a 2xx/3xx response yields
the parsed JSON body when the body is valid JSON and the raw response text
otherwise. -/
theorem request_status_spec (c : LifxClient) (tr : Transport) (m p : String)
    (b : Option Val) (resp : HttpResponse)
    (h : tr (c.callOf m p b false) = .ok resp) :
    (400 ≤ resp.status_code →
      c.request tr m p b = .error (.apiError resp.status_code resp.text)) ∧
    (200 ≤ resp.status_code → resp.status_code < 400 →
      ((∀ v, resp.jsonBody = some v → c.request tr m p b = .ok v) ∧
       (resp.jsonBody = none → c.request tr m p b = .ok (.str resp.text)))) := by
  have hr : c.request tr m p b = processResponse resp := by
    unfold LifxClient.request
    simp only [h]
  refine ⟨?_, ?_⟩
  · intro h4
    rw [hr]
    unfold processResponse
    rw [if_pos h4]
  · intro h2 h4
    refine ⟨?_, ?_⟩
    · intro v hv
      rw [hr]
      unfold processResponse
      rw [if_neg (by omega)]
      simp only [hv]
    · intro hv
      rw [hr]
      unfold processResponse
      rw [if_neg (by omega)]
      simp only [hv]

theorem request_status_spec_witness :
    demoClient.request tr404 "GET" "/lights/all" none =
      .error (.apiError 404 "Not found") ∧
    demoClient.request trOkJson "GET" "/lights/all" none = .ok (.list []) := by
  refine ⟨?_, ?_⟩
  · exact (request_status_spec demoClient tr404 "GET" "/lights/all" none resp404
      rfl).1 (by decide)
  · exact ((request_status_spec demoClient trOkJson "GET" "/lights/all" none respOkJson
      rfl).2 (by decide) (by decide)).1 (.list []) rfl

/-- C7: severity normalization maps, case-insensitively, 1/low to low,
2/medium/moderate to medium, 3/high to high, 4/critical/crit to critical,
and any unrecognized or absent value to the unspecified result (`None`);
severity defaults satisfy low to (green,3), medium to (yellow,5), high to
(orange,7), critical to (red,10), anything else to (red,5). -/
theorem severity_spec (s : String) (o : Option String) :
    (_normalize_severity none = none) ∧
    (pyStrip (pyLower s) = "1" ∨ pyStrip (pyLower s) = "low" →
      _normalize_severity (some s) = some "low") ∧
    (pyStrip (pyLower s) = "2" ∨ pyStrip (pyLower s) = "medium" ∨ pyStrip (pyLower s) = "moderate" →
      _normalize_severity (some s) = some "medium") ∧
    (pyStrip (pyLower s) = "3" ∨ pyStrip (pyLower s) = "high" →
      _normalize_severity (some s) = some "high") ∧
    (pyStrip (pyLower s) = "4" ∨ pyStrip (pyLower s) = "critical" ∨ pyStrip (pyLower s) = "crit" →
      _normalize_severity (some s) = some "critical") ∧
    (pyStrip (pyLower s) ∉ (["1", "low", "2", "medium", "moderate", "3", "high", "4",
        "critical", "crit"] : List String) →
      _normalize_severity (some s) = none) ∧
    (_severity_defaults (some "low") = ("green", 3)) ∧
    (_severity_defaults (some "medium") = ("yellow", 5)) ∧
    (_severity_defaults (some "high") = ("orange", 7)) ∧
    (_severity_defaults (some "critical") = ("red", 10)) ∧
    (o ≠ some "low" → o ≠ some "medium" → o ≠ some "high" → o ≠ some "critical" →
      _severity_defaults o = ("red", 5)) := by
  refine ⟨rfl, ?_, ?_, ?_, ?_, ?_, rfl, rfl, rfl, rfl, ?_⟩
  · intro h
    simp only [_normalize_severity]
    rw [if_pos h]
  · intro h
    simp only [_normalize_severity]
    rcases h with h | h | h <;> rw [h] <;> decide
  · intro h
    simp only [_normalize_severity]
    rcases h with h | h <;> rw [h] <;> decide
  · intro h
    simp only [_normalize_severity]
    rcases h with h | h | h <;> rw [h] <;> decide
  · intro h
    simp only [List.mem_cons, List.not_mem_nil, or_false] at h
    push_neg at h
    obtain ⟨n1, n2, n3, n4, n5, n6, n7, n8, n9, n10⟩ := h
    simp only [_normalize_severity]
    rw [if_neg (by simp [n1, n2]), if_neg (by simp [n3, n4, n5]),
      if_neg (by simp [n6, n7]), if_neg (by simp [n8, n9, n10])]
  · intro h1 h2 h3 h4
    simp only [_severity_defaults]
    rw [if_neg h1, if_neg h2, if_neg h3, if_neg h4]

theorem severity_spec_witness :
    _normalize_severity (some " CRIT ") = some "critical" ∧
    _severity_defaults (some "bogus") = ("red", 5) := by
  have h := severity_spec " CRIT " (some "bogus")
  exact ⟨h.2.2.2.2.1 (Or.inr (Or.inr (by decide))),
    h.2.2.2.2.2.2.2.2.2.2 (by decide) (by decide) (by decide) (by decide)⟩

theorem fmt_str_parse_fail (strf : Int → String) (now : Int) (s : String)
    (hp : pyParseInt? s = none) (hs : s ≠ "") :
    _fmt_ts_relative strf now (.str s) = s := by
  simp only [_fmt_ts_relative]
  rw [if_neg hs, hp]
  simp only [fmtTail, pyStrVal]

theorem fmt_str_neg (strf : Int → String) (now t : Int) (s : String)
    (hp : pyParseInt? s = some t) (hd : now - t < 0) :
    _fmt_ts_relative strf now (.str s) = strf t := by
  have hs : s ≠ "" := by
    intro he
    rw [he, show pyParseInt? "" = none from rfl] at hp
    exact Option.noConfusion hp
  simp only [_fmt_ts_relative]
  rw [if_neg hs, hp]
  simp only [fmtTail]
  rw [if_pos hd]

theorem fmt_str_pos (strf : Int → String) (now t : Int) (s : String)
    (hp : pyParseInt? s = some t) (d : Int) (hd : now - t = d) (h0 : ¬ d < 0)
    (out : String) (hout : " (" ++ fmtRel d.toNat ++ " ago)" = out) :
    _fmt_ts_relative strf now (.str s) = strf t ++ out := by
  have hs : s ≠ "" := by
    intro he
    rw [he, show pyParseInt? "" = none from rfl] at hp
    exact Option.noConfusion hp
  simp only [_fmt_ts_relative]
  rw [if_neg hs, hp]
  simp only [fmtTail]
  rw [hd, if_neg h0, hout]

/-- C4: the relative-timestamp formatter renders an absent or empty input as
"-", a non-parseable input as the raw value, a negative delta (future
timestamp) as the absolute timestamp only, and a non-negative delta as the
absolute timestamp followed by the largest whole unit ≥ 1 among
years/months/days/hours/minutes/seconds; in particular a delta of exactly
86400 seconds reports "1 day ago" and a delta of 30×86400 reports
"1 month ago".  The function is total (never raises) by construction. -/
theorem fmt_ts_relative_spec (strf : Int → String) (now t : Int) (s : String) :
    (_fmt_ts_relative strf now .null = "-") ∧
    (_fmt_ts_relative strf now (.str "") = "-") ∧
    (pyParseInt? s = none → s ≠ "" → _fmt_ts_relative strf now (.str s) = s) ∧
    (pyParseInt? s = some t → now - t < 0 →
      _fmt_ts_relative strf now (.str s) = strf t) ∧
    (pyParseInt? s = some t → now - t = 86400 →
      _fmt_ts_relative strf now (.str s) = strf t ++ " (1 day ago)") ∧
    (pyParseInt? s = some t → now - t = 30 * 86400 →
      _fmt_ts_relative strf now (.str s) = strf t ++ " (1 month ago)") ∧
    (pyParseInt? s = some t → now - t = 365 * 86400 →
      _fmt_ts_relative strf now (.str s) = strf t ++ " (1 year ago)") ∧
    (pyParseInt? s = some t → now - t = 3600 →
      _fmt_ts_relative strf now (.str s) = strf t ++ " (1 hour ago)") ∧
    (pyParseInt? s = some t → now - t = 60 →
      _fmt_ts_relative strf now (.str s) = strf t ++ " (1 minute ago)") ∧
    (pyParseInt? s = some t → now - t = 1 →
      _fmt_ts_relative strf now (.str s) = strf t ++ " (1 second ago)") := by
  refine ⟨rfl, rfl, fmt_str_parse_fail strf now s, fmt_str_neg strf now t s,
    ?_, ?_, ?_, ?_, ?_, ?_⟩
  · intro hp hd
    exact fmt_str_pos strf now t s hp 86400 hd (by decide) _ (by decide)
  · intro hp hd
    exact fmt_str_pos strf now t s hp (30 * 86400) hd (by decide) _ (by decide)
  · intro hp hd
    exact fmt_str_pos strf now t s hp (365 * 86400) hd (by decide) _ (by decide)
  · intro hp hd
    exact fmt_str_pos strf now t s hp 3600 hd (by decide) _ (by decide)
  · intro hp hd
    exact fmt_str_pos strf now t s hp 60 hd (by decide) _ (by decide)
  · intro hp hd
    exact fmt_str_pos strf now t s hp 1 hd (by decide) _ (by decide)

theorem fmt_ts_relative_spec_witness :
    _fmt_ts_relative strf0 86500 (.str "100") = strf0 100 ++ " (1 day ago)" ∧
    _fmt_ts_relative strf0 (100 + 30 * 86400) (.str "100") =
      strf0 100 ++ " (1 month ago)" ∧
    _fmt_ts_relative strf0 50 (.str "100") = strf0 100 ∧
    _fmt_ts_relative strf0 0 (.str "notanumber") = "notanumber" := by
  refine ⟨?_, ?_, ?_, ?_⟩
  · exact (fmt_ts_relative_spec strf0 86500 100 "100").2.2.2.2.1 (by decide) (by decide)
  · exact (fmt_ts_relative_spec strf0 (100 + 30 * 86400) 100
      "100").2.2.2.2.2.1 (by decide) (by decide)
  · exact (fmt_ts_relative_spec strf0 50 100 "100").2.2.2.1 (by decide) (by decide)
  · exact (fmt_ts_relative_spec strf0 0 0 "notanumber").2.2.1 (by decide) (by decide)

/-- C1: for lifx-alert-flash with severity "critical" and no explicit
color/cycles argument, the pulse request payload has color "red" and
cycles 10; with an explicit color "blue" the payload color is "blue" while
cycles remains 10; and whenever the payload is built, power_on defaults to
true and persist to false when those arguments are not explicitly set,
regardless of severity. -/
theorem alert_flash_spec (c : LifxClient) (tr : Transport) (args : Args) :
    (args "severity" = some "critical" → args "color" = none → args "cycles" = none →
      args "period" = none →
      ∃ a, alert_flash_compute args = .ok a ∧
        Val.get a.payload "color" = some (.str "red") ∧
        Val.get a.payload "cycles" = some (.num 10) ∧
        (lifx_alert_flash_command c tr args).calls =
          [pulseEffectCall c (orDefault (args "selector") "all") a.payload]) ∧
    (args "severity" = some "critical" → args "color" = some "blue" →
      args "cycles" = none → args "period" = none →
      ∃ a, alert_flash_compute args = .ok a ∧
        Val.get a.payload "color" = some (.str "blue") ∧
        Val.get a.payload "cycles" = some (.num 10) ∧
        (lifx_alert_flash_command c tr args).calls =
          [pulseEffectCall c (orDefault (args "selector") "all") a.payload]) ∧
    (∀ a, alert_flash_compute args = .ok a →
      (args "power_on" = none → Val.get a.payload "power_on" = some (.bool true)) ∧
      (args "persist" = none → Val.get a.payload "persist" = some (.bool false))) := by
  refine ⟨?_, ?_, ?_⟩
  · intro h1 h2 h3 h4
    have hc : alert_flash_compute args = .ok
        { severity_raw := some "critical", severity := some "critical",
          color := "red", cycles := 10, period := (7 : Rat) / 10,
          payload := .dict
            [("color", .str "red"), ("cycles", .num 10),
             ("period", .num ((7 : Rat) / 10)),
             ("persist", .bool ((_bool_arg (args "persist")).getD false)),
             ("power_on", .bool ((_bool_arg (args "power_on")).getD true))] } := by
      simp only [alert_flash_compute, h1, h2, h3, h4]
      rfl
    refine ⟨_, hc, rfl, rfl, ?_⟩
    simp only [lifx_alert_flash_command, hc]
    split <;> rfl
  · intro h1 h2 h3 h4
    have hc : alert_flash_compute args = .ok
        { severity_raw := some "critical", severity := some "critical",
          color := "blue", cycles := 10, period := (7 : Rat) / 10,
          payload := .dict
            [("color", .str "blue"), ("cycles", .num 10),
             ("period", .num ((7 : Rat) / 10)),
             ("persist", .bool ((_bool_arg (args "persist")).getD false)),
             ("power_on", .bool ((_bool_arg (args "power_on")).getD true))] } := by
      simp only [alert_flash_compute, h1, h2, h3, h4]
      rfl
    refine ⟨_, hc, rfl, rfl, ?_⟩
    simp only [lifx_alert_flash_command, hc]
    split <;> rfl
  · intro a ha
    simp only [alert_flash_compute] at ha
    split at ha
    · exact Except.noConfusion ha
    · split at ha
      · exact Except.noConfusion ha
      · injection ha with hrec
        subst hrec
        refine ⟨?_, ?_⟩
        · intro hpow
          rw [hpow]
          rfl
        · intro hper
          rw [hper]
          rfl

theorem alert_flash_spec_witness :
    (∃ a, alert_flash_compute alertArgsCrit = .ok a ∧
      Val.get a.payload "color" = some (.str "red") ∧
      Val.get a.payload "cycles" = some (.num 10) ∧
      (lifx_alert_flash_command demoClient trOkJson alertArgsCrit).calls =
        [pulseEffectCall demoClient (orDefault (alertArgsCrit "selector") "all")
          a.payload]) ∧
    (∃ a, alert_flash_compute alertArgsCritBlue = .ok a ∧
      Val.get a.payload "color" = some (.str "blue") ∧
      Val.get a.payload "cycles" = some (.num 10) ∧
      (lifx_alert_flash_command demoClient trOkJson alertArgsCritBlue).calls =
        [pulseEffectCall demoClient (orDefault (alertArgsCritBlue "selector") "all")
          a.payload]) :=
  ⟨(alert_flash_spec demoClient trOkJson alertArgsCrit).1 rfl rfl rfl rfl,
   (alert_flash_spec demoClient trOkJson alertArgsCritBlue).2.1 rfl rfl rfl rfl⟩

/-- C3: a missing required field — color for the breathe and pulse effects,
scene_uuid for scene activation — makes the handler emit an error artifact
and perform no outbound call. -/
theorem required_field_spec (c : LifxClient) (tr : Transport) (args : Args) :
    (args "color" = none →
      lifx_breathe_effect_command c tr args =
        { calls := [], results := [make_error_entry
            "color argument is required for lifx-breathe-effect"], raised := none } ∧
      lifx_pulse_effect_command c tr args =
        { calls := [], results := [make_error_entry
            "color argument is required for lifx-pulse-effect"], raised := none }) ∧
    (args "scene_uuid" = none →
      lifx_activate_scene_command c tr args =
        { calls := [], results := [make_error_entry "scene_uuid argument is required"],
          raised := none }) := by
  refine ⟨?_, ?_⟩
  · intro h
    refine ⟨?_, ?_⟩
    · simp only [lifx_breathe_effect_command, h]
      rfl
    · simp only [lifx_pulse_effect_command, h]
      rfl
  · intro h
    simp only [lifx_activate_scene_command, h]
    rfl

theorem required_field_spec_witness :
    lifx_breathe_effect_command demoClient trOkJson demoArgs =
      { calls := [], results := [make_error_entry
          "color argument is required for lifx-breathe-effect"], raised := none } ∧
    lifx_pulse_effect_command demoClient trOkJson demoArgs =
      { calls := [], results := [make_error_entry
          "color argument is required for lifx-pulse-effect"], raised := none } ∧
    lifx_activate_scene_command demoClient trOkJson demoArgs =
      { calls := [], results := [make_error_entry "scene_uuid argument is required"],
        raised := none } := by
  have h := required_field_spec demoClient trOkJson demoArgs
  exact ⟨(h.1 rfl).1, (h.1 rfl).2, h.2 rfl⟩

theorem foldPresent_absorb (args : Args) (fs : List String) (e : PyError) :
    fs.foldl (stepPresent args) (.error e) = .error e := by
  induction fs with
  | nil => rfl
  | cons g gs ih =>
    rw [List.foldl_cons, show stepPresent args (.error e) g = .error e from rfl]
    exact ih

theorem fieldsPresent_fail (args : Args) (f s : String) (hs : args f = some s)
    (hp : pyParseFloat? s = none) :
    ∀ fs : List String, f ∈ fs → ∀ init,
      ∃ e, floatFieldsPresent args fs init = .error e := by
  intro fs
  induction fs with
  | nil => intro hmem; cases hmem
  | cons g gs ih =>
    intro hmem init
    rcases List.mem_cons.mp hmem with heq | hmem'
    · subst heq
      have hstep : stepPresent args (.ok init) f =
          .error (.valueError ("could not convert string to float: '" ++ s ++ "'")) := by
        simp [stepPresent, Except.bind, hs, pyFloatE, hp, Except.map]
      unfold floatFieldsPresent
      rw [List.foldl_cons, hstep]
      exact ⟨_, foldPresent_absorb args gs _⟩
    · rcases hstep : stepPresent args (.ok init) g with e | p
      · unfold floatFieldsPresent
        rw [List.foldl_cons, hstep]
        exact ⟨e, foldPresent_absorb args gs e⟩
      · have hrec := ih hmem' p
        unfold floatFieldsPresent at hrec ⊢
        rw [List.foldl_cons, hstep]
        exact hrec

/-- C10: for lifx-set-state the numeric arguments brightness/duration/
infrared are gated only on presence; a present but non-float-parseable value
(such as the empty string) raises before the empty-payload validation and
before any outbound call, so the invocation surfaces as the dispatcher's
"Failed to execute ..." error artifact, not the "No state fields were
provided." validation error, and no client method is invoked. -/
theorem set_state_float_gate (params : Args) (c : LifxClient) (tr : Transport)
    (strf : Int → String) (now lat : Int) (args : Args)
    (h : (∃ s, args "brightness" = some s ∧ pyParseFloat? s = none) ∨
         (∃ s, args "duration" = some s ∧ pyParseFloat? s = none) ∨
         (∃ s, args "infrared" = some s ∧ pyParseFloat? s = none)) :
    (lifx_set_state_command c tr args).calls = [] ∧
    (lifx_set_state_command c tr args).results = [] ∧
    (∃ e, (lifx_set_state_command c tr args).raised = some e ∧
      (main params tr strf now lat "lifx-set-state" args).results =
        [make_error_entry
          ("Failed to execute 'lifx-set-state'. Error: " ++ e.message)]) ∧
    (main params tr strf now lat "lifx-set-state" args).calls = [] ∧
    (∀ m : String,
      "Failed to execute 'lifx-set-state'. Error: " ++ m ≠
        "No state fields were provided.") := by
  obtain ⟨e, hfold⟩ : ∃ e, floatFieldsPresent args ["brightness", "duration", "infrared"]
      (strField args "power" ++ strField args "color") = .error e := by
    rcases h with ⟨s, hs, hp⟩ | ⟨s, hs, hp⟩ | ⟨s, hs, hp⟩
    · exact fieldsPresent_fail args _ s hs hp _ (by decide) _
    · exact fieldsPresent_fail args _ s hs hp _ (by decide) _
    · exact fieldsPresent_fail args _ s hs hp _ (by decide) _
  have hcmd : ∀ c' : LifxClient, lifx_set_state_command c' tr args =
      { calls := [], results := [], raised := some e } := by
    intro c'
    simp only [lifx_set_state_command, hfold]
  have hdisp : dispatch (mkLifxClient (params "url") (params "api_token")
      (!pyTruthyOpt (params "insecure"))) tr strf now lat "lifx-set-state" args =
      { calls := [], results := [], raised := some e } := by
    unfold dispatch
    rw [if_neg (by decide), if_neg (by decide), if_pos rfl]
    exact hcmd _
  have hmain : main params tr strf now lat "lifx-set-state" args =
      mainFinish "lifx-set-state" { calls := [], results := [], raised := some e } := by
    simp only [main]
    rw [hdisp]
  refine ⟨?_, ?_, ⟨e, ?_, ?_⟩, ?_, ?_⟩
  · rw [hcmd c]
  · rw [hcmd c]
  · rw [hcmd c]
  · rw [hmain]
    rfl
  · rw [hmain]
    rfl
  · intro m hEq
    have hlen := congrArg String.length hEq
    rw [String.length_append] at hlen
    have h1 : ("No state fields were provided." : String).length <
        ("Failed to execute 'lifx-set-state'. Error: " : String).length := by decide
    omega

theorem set_state_float_gate_witness :
    (lifx_set_state_command demoClient trOkJson badBrightnessArgs).calls = [] ∧
    (lifx_set_state_command demoClient trOkJson badBrightnessArgs).results = [] ∧
    (∃ e, (lifx_set_state_command demoClient trOkJson badBrightnessArgs).raised =
        some e ∧
      (main demoArgs trOkJson strf0 0 5 "lifx-set-state" badBrightnessArgs).results =
        [make_error_entry
          ("Failed to execute 'lifx-set-state'. Error: " ++ e.message)]) ∧
    (main demoArgs trOkJson strf0 0 5 "lifx-set-state" badBrightnessArgs).calls = [] ∧
    (∀ m : String,
      "Failed to execute 'lifx-set-state'. Error: " ++ m ≠
        "No state fields were provided.") :=
  set_state_float_gate demoArgs demoClient trOkJson strf0 0 5 badBrightnessArgs
    (Or.inl ⟨"", rfl, rfl⟩)

/-- C2: when the underlying light-list call raises, lifx-test-connection
still emits a single note artifact (not an error artifact and no exception),
whose diagnostic record has Status "failed" and Error equal to the raised
exception's message — non-empty whenever that message is. -/
theorem test_connection_spec (c : LifxClient) (tr : Transport) (lat : Int)
    (args : Args) (e : PyError)
    (h : c.list_lights tr (orDefault (args "selector") "all") = .error e)
    (hne : e.message ≠ "") :
    ∃ entry, (lifx_test_connection_command c tr lat args).results = [entry] ∧
      (lifx_test_connection_command c tr lat args).raised = none ∧
      Val.get entry "Type" = some (.num ENTRY_TYPE_NOTE) ∧
      digVal entry ["EntryContext", "LIFX.ConnectionTest", "Info", "Status"] =
        some (.str "failed") ∧
      digVal entry ["EntryContext", "LIFX.ConnectionTest", "Info", "Error"] =
        some (.str e.message) ∧
      e.message ≠ "" := by
  simp only [lifx_test_connection_command, h]
  exact ⟨_, rfl, trivial, note_entry_type _ _ _, rfl, rfl, hne⟩

theorem test_connection_spec_witness :
    ∃ entry,
      (lifx_test_connection_command demoClient failTransport 5 demoArgs).results =
        [entry] ∧
      (lifx_test_connection_command demoClient failTransport 5 demoArgs).raised =
        none ∧
      Val.get entry "Type" = some (.num ENTRY_TYPE_NOTE) ∧
      digVal entry ["EntryContext", "LIFX.ConnectionTest", "Info", "Status"] =
        some (.str "failed") ∧
      digVal entry ["EntryContext", "LIFX.ConnectionTest", "Info", "Error"] =
        some (.str (PyError.netError "Connection refused").message) ∧
      (PyError.netError "Connection refused").message ≠ "" :=
  test_connection_spec demoClient failTransport 5 demoArgs
    (.netError "Connection refused") rfl (by decide)

/-- C8: a single-object response of a list-returning call (list-lights,
list-scenes) is normalized into a one-element list before iteration, so the
rendered context always carries a list. -/
theorem list_normalization_spec (c : LifxClient) (tr : Transport)
    (strf : Int → String) (now : Int) (args : Args) (v : Val) :
    (c.list_lights tr (orDefault (args "selector") "all") = .ok v →
      (lifx_list_lights_command c tr args).raised = none →
      ∃ entry, (lifx_list_lights_command c tr args).results = [entry] ∧
        digVal entry ["EntryContext", "LIFX.Light"] = some (.list (normList v))) ∧
    (c.list_scenes tr = .ok v →
      (lifx_list_scenes_command c tr strf now args).raised = none →
      ∃ entry, (lifx_list_scenes_command c tr strf now args).results = [entry] ∧
        digVal entry ["EntryContext", "LIFX.Scene"] = some (.list (normList v))) ∧
    (v.isList = false → normList v = [v]) := by
  refine ⟨?_, ?_, ?_⟩
  · intro h1 h2
    simp only [lifx_list_lights_command, h1] at h2 ⊢
    rcases hmd : renderLightsMd (orDefault (args "selector") "all")
        (_bool_arg (args "verbose")) (normList v) with e | md
    · simp only [hmd] at h2
      exact Option.noConfusion h2
    · simp only [hmd]
      exact ⟨_, rfl, rfl⟩
  · intro h1 h2
    simp only [lifx_list_scenes_command, h1] at h2 ⊢
    rcases hmd : renderScenesMd strf now (_bool_arg (args "verbose"))
        (normList v) with e | md
    · simp only [hmd] at h2
      exact Option.noConfusion h2
    · simp only [hmd]
      exact ⟨_, rfl, rfl⟩
  · intro hv
    cases v <;> simp_all [Val.isList, normList]

theorem list_normalization_spec_witness :
    (∃ entry,
      (lifx_list_lights_command demoClient trOneLight demoArgs).results = [entry] ∧
      digVal entry ["EntryContext", "LIFX.Light"] =
        some (.list (normList demoLight))) ∧
    (∃ entry,
      (lifx_list_scenes_command demoClient trOneScene strf0 0 demoArgs).results =
        [entry] ∧
      digVal entry ["EntryContext", "LIFX.Scene"] =
        some (.list (normList demoScene))) ∧
    demoLight.isList = false := by
  refine ⟨?_, ?_, rfl⟩
  · exact (list_normalization_spec demoClient trOneLight strf0 0 demoArgs
      demoLight).1 rfl rfl
  · exact (list_normalization_spec demoClient trOneScene strf0 0 demoArgs
      demoScene).2.1 rfl rfl

theorem truthyStrOpt_ne_empty (o : Option String) (w : String)
    (h : truthyStrOpt o = some w) : w ≠ "" := by
  cases o with
  | none => exact Option.noConfusion h
  | some s =>
    simp only [truthyStrOpt] at h
    by_cases hs : s = ""
    · rw [if_pos hs] at h
      exact Option.noConfusion h
    · rw [if_neg hs] at h
      injection h with h'
      rw [← h']
      exact hs

/-- C5 counterexample: the claim says every rate-limit field falls back to
its -Short header-name variant; but with only `X-RateLimit-Reset-Short`
present, the health check leaves the RateReset field at the placeholder "-"
instead of populating it from the Short variant. -/
theorem health_reset_short_cex :
    cexHeaders "X-RateLimit-Reset-Short" = some "1600000000" ∧
    ∃ entry,
      (lifx_health_check_command demoClient cexTransport strf0 1600086400 7
        demoArgs).results = [entry] ∧
      digVal entry ["EntryContext", "LIFX.HealthCheck", "RateReset"] =
        some (.str "-") ∧
      Val.str "-" ≠
        Val.str (_fmt_ts_relative strf0 1600086400 (.str "1600000000")) := by
  refine ⟨rfl, ⟨_, rfl, rfl, ?_⟩⟩
  intro hEq
  injection hEq with h'
  exact absurd h' (by decide)

/-- C5 (amended): the health check reports OK true exactly when the HTTP
status is in [200, 400), independently of whether the body parses as JSON;
RateRemaining and RateLimit are populated from the X-RateLimit-* headers
falling back through the -Short variants and then the placeholder "-";
RateReset is populated from X-RateLimit-Reset and falls back directly to
the placeholder "-" (no -Short variant is consulted). -/
theorem health_check_spec (c : LifxClient) (tr : Transport) (strf : Int → String)
    (now lat : Int) (args : Args) (resp : HttpResponse)
    (h : tr (getWithHeadersCall c "/lights/all") = .ok resp) :
    ∃ entry,
      (lifx_health_check_command c tr strf now lat args).results = [entry] ∧
      (lifx_health_check_command c tr strf now lat args).raised = none ∧
      Val.get entry "Type" = some (.num ENTRY_TYPE_NOTE) ∧
      (digVal entry ["EntryContext", "LIFX.HealthCheck", "OK"] =
          some (.bool true) ↔
        200 ≤ resp.status_code ∧ resp.status_code < 400) ∧
      digVal entry ["EntryContext", "LIFX.HealthCheck", "RateRemaining"] =
        some (.str (orChain (resp.headers "X-RateLimit-Remaining")
          (orChain (resp.headers "X-RateLimit-Remaining-Short") "-"))) ∧
      digVal entry ["EntryContext", "LIFX.HealthCheck", "RateLimit"] =
        some (.str (orChain (resp.headers "X-RateLimit-Limit")
          (orChain (resp.headers "X-RateLimit-Limit-Short") "-"))) ∧
      (truthyStrOpt (resp.headers "X-RateLimit-Reset") = none →
        digVal entry ["EntryContext", "LIFX.HealthCheck", "RateReset"] =
          some (.str "-")) ∧
      (∀ w, truthyStrOpt (resp.headers "X-RateLimit-Reset") = some w → w ≠ "-" →
        digVal entry ["EntryContext", "LIFX.HealthCheck", "RateReset"] =
          some (.str (_fmt_ts_relative strf now (.str w)))) := by
  have h' : c.requestRaw tr "GET" "/lights/all" none = .ok resp := h
  simp only [lifx_health_check_command, LifxClient.get_with_headers, h']
  refine ⟨_, rfl, trivial, note_entry_type _ _ _, ?_, rfl, rfl, ?_, ?_⟩
  · show some (Val.bool (decide (200 ≤ resp.status_code ∧ resp.status_code < 400))) =
        some (Val.bool true) ↔ 200 ≤ resp.status_code ∧ resp.status_code < 400
    simp only [Option.some.injEq, Val.bool.injEq, decide_eq_true_eq]
  · intro hr
    simp only [orChain, hr]
    rfl
  · intro w hw hwne
    simp only [orChain, hw]
    have hne := truthyStrOpt_ne_empty _ _ hw
    show some (Val.str (if w ≠ "" ∧ w ≠ "-" then _fmt_ts_relative strf now (.str w)
        else "-")) = some (Val.str (_fmt_ts_relative strf now (.str w)))
    rw [if_pos ⟨hne, hwne⟩]

theorem health_check_spec_witness :
    ∃ entry,
      (lifx_health_check_command demoClient trHdrs strf0 0 7 demoArgs).results =
        [entry] ∧
      digVal entry ["EntryContext", "LIFX.HealthCheck", "RateRemaining"] =
        some (.str "59") ∧
      digVal entry ["EntryContext", "LIFX.HealthCheck", "RateLimit"] =
        some (.str "120") ∧
      digVal entry ["EntryContext", "LIFX.HealthCheck", "RateReset"] =
        some (.str "-") ∧
      digVal entry ["EntryContext", "LIFX.HealthCheck", "OK"] = some (.bool true) := by
  obtain ⟨entry, h1, h2, h3, h4, h5, h6, h7, h8⟩ :=
    health_check_spec demoClient trHdrs strf0 0 7 demoArgs respHdrs rfl
  exact ⟨entry, h1, h5.trans rfl, h6.trans rfl, h7 rfl, h4.mpr (by decide)⟩

end Lifx
